import Mathlib

/-!
Verification development for the redisweb inspection engine (src/app.py).

The Python source is shallowly embedded: pure computations become Lean
functions, the Redis store is modelled as explicit data passed in (the
store is an external collaborator in the spec), Python exceptions become
Except values, and Python float division is modelled over ℚ (the spec
states its floating-point claims up to tolerance, and the exact rational
value is the float's ideal).
-/

/-- Model of a Python byte-string: its textual content plus whether
UTF-8 decoding succeeds (`_decode_bytes` falls back to raw bytes when
decoding fails). -/
structure PyBytes where
  data : String
  decodable : Bool := true
deriving DecidableEq, Repr

/-- Model of the Python values flowing through the engine: integers,
text strings, byte strings, and Python None. -/
inductive PyVal where
  | int (n : Int)
  | str (s : String)
  | bytes (b : PyBytes)
  | none
deriving DecidableEq, Repr

/-- Embedding of `_decode_bytes` (src/app.py lines 72-80): a byte-string
is decoded to text when possible; on decode failure the raw bytes are
kept; non-bytes values pass through. -/
def decode_bytes : PyVal → PyVal
  | .bytes b => if b.decodable then .str b.data else .bytes b
  | v => v

/-- The degraded field marker used throughout src/app.py. -/
def na : PyVal := .str "n/a"

/-! ## Database Sampler (`_get_db_summary`, src/app.py lines 222-282)

The two pipelined batches talk to the store; their outcome, per sampled
key after deduplication, is the key name, the parsed DEBUG OBJECT
details (from which only `serializedlength` is read), and the TTL reply.
The accumulation loop and the scaling arithmetic are embedded below.
The TTL reply is `Option Int`: `none` models a nil reply (older client
libraries return nil for a key with no expiry), `some n` an integer
reply (modern clients return -1 for no expiry, -2 for a missing key).
The loop tests it with Python truthiness: `if ttl:`. -/

/-- One sampled key as seen by the accumulation loop of
`_get_db_summary`: its name, the `serializedlength` field parsed from
DEBUG OBJECT, and the TTL reply. -/
structure SampleEntry where
  key : String
  serializedlength : Int
  ttl : Option Int
deriving DecidableEq, Repr

/-- Python truthiness of the TTL reply: nil and 0 are falsy, every
other integer (including -1, the no-expiry reply of modern clients)
is truthy. -/
def ttlTruthy : Option Int → Bool
  | Option.none => false
  | Option.some n => n != 0

/-- `length = details[b"serializedlength"] + len(key)`
(src/app.py line 252); the key name's length models `len(key)`. -/
def entryLen (e : SampleEntry) : Int :=
  e.serializedlength + e.key.length

/-- The six accumulator variables of the sampling loop
(src/app.py lines 239-244). -/
structure SampleAcc where
  total_memory : Int
  volatile_memory : Int
  persistent_memory : Int
  total_keys : Nat
  volatile_keys : Nat
  persistent_keys : Nat
deriving DecidableEq, Repr

/-- All six accumulators start at 0. -/
def initAcc : SampleAcc :=
  ⟨0, 0, 0, 0, 0, 0⟩

/-- One iteration of the sampling loop (src/app.py lines 246-261):
when the TTL reply is truthy the length goes to the PERSISTENT bucket,
otherwise to the volatile bucket (this is what the source does — note
the direction), and the totals grow in both cases. -/
def sampleStep (a : SampleAcc) (e : SampleEntry) : SampleAcc :=
  let length := entryLen e
  if ttlTruthy e.ttl then
    { a with
      persistent_memory := a.persistent_memory + length
      persistent_keys := a.persistent_keys + 1
      total_memory := a.total_memory + length
      total_keys := a.total_keys + 1 }
  else
    { a with
      volatile_memory := a.volatile_memory + length
      volatile_keys := a.volatile_keys + 1
      total_memory := a.total_memory + length
      total_keys := a.total_keys + 1 }

/-- The whole accumulation loop over the deduplicated sampled keys. -/
def sampleAccumulate (entries : List SampleEntry) : SampleAcc :=
  entries.foldl sampleStep initAcc

/-- The memory fields of the returned summary
(src/app.py lines 263-282). Python float division is modelled over ℚ. -/
structure DbSummary where
  size : Int
  total_memory : ℚ
  volatile_memory : ℚ
  persistent_memory : ℚ
deriving DecidableEq, Repr

/-- Embedding of the scaling arithmetic of `_get_db_summary`
(src/app.py lines 263-282): each estimate is
`(bucket_memory / bucket_keys) * size` guarded by that bucket's own
key count (Python `if total_keys:` truthiness), else 0. -/
def getDbSummary (size : Int) (entries : List SampleEntry) : DbSummary :=
  let a := sampleAccumulate entries
  { size := size
    total_memory :=
      if a.total_keys ≠ 0 then
        ((a.total_memory : ℚ) / (a.total_keys : ℚ)) * (size : ℚ)
      else 0
    persistent_memory :=
      if a.persistent_keys ≠ 0 then
        ((a.persistent_memory : ℚ) / (a.persistent_keys : ℚ)) * (size : ℚ)
      else 0
    volatile_memory :=
      if a.volatile_keys ≠ 0 then
        ((a.volatile_memory : ℚ) / (a.volatile_keys : ℚ)) * (size : ℚ)
      else 0 }

/-- Folding the loop adds the number of entries to `total_keys`. -/
lemma sampleFold_total_keys (entries : List SampleEntry) (a : SampleAcc) :
    (entries.foldl sampleStep a).total_keys = a.total_keys + entries.length := by
  induction entries generalizing a with
  | nil => simp
  | cons e rest ih =>
    simp only [List.foldl_cons, List.length_cons, ih]
    unfold sampleStep
    by_cases h : ttlTruthy e.ttl <;> simp [h] <;> omega

/-- Folding the loop adds the sum of entry lengths to `total_memory`. -/
lemma sampleFold_total_memory (entries : List SampleEntry) (a : SampleAcc) :
    (entries.foldl sampleStep a).total_memory =
      a.total_memory + (entries.map entryLen).sum := by
  induction entries generalizing a with
  | nil => simp
  | cons e rest ih =>
    simp only [List.foldl_cons, List.map_cons, List.sum_cons, ih]
    unfold sampleStep
    by_cases h : ttlTruthy e.ttl <;> simp [h] <;> ring

/-- Folding the loop preserves `volatile_keys + persistent_keys -
total_keys`. -/
lemma sampleFold_bucket_keys (entries : List SampleEntry) (a : SampleAcc) :
    (entries.foldl sampleStep a).volatile_keys
      + (entries.foldl sampleStep a).persistent_keys
      + a.total_keys
    = (entries.foldl sampleStep a).total_keys
      + a.volatile_keys + a.persistent_keys := by
  induction entries generalizing a with
  | nil => simp; omega
  | cons e rest ih =>
    simp only [List.foldl_cons]
    have h1 := ih (sampleStep a e)
    unfold sampleStep at h1 ⊢
    by_cases h : ttlTruthy e.ttl <;> simp [h] at h1 ⊢ <;> omega

/-- C6: every sampled key is counted in exactly one of the volatile or
persistent buckets — each loop iteration increments exactly one bucket
counter by one — and after the whole accumulation loop
`volatile_keys + persistent_keys = total_keys`. -/
theorem sampler_bucket_partition (entries : List SampleEntry) :
    (sampleAccumulate entries).volatile_keys
        + (sampleAccumulate entries).persistent_keys
      = (sampleAccumulate entries).total_keys
    ∧ ∀ (a : SampleAcc) (e : SampleEntry),
        ((sampleStep a e).volatile_keys = a.volatile_keys + 1
          ∧ (sampleStep a e).persistent_keys = a.persistent_keys)
        ∨ ((sampleStep a e).volatile_keys = a.volatile_keys
          ∧ (sampleStep a e).persistent_keys = a.persistent_keys + 1) := by
  constructor
  · have h := sampleFold_bucket_keys entries initAcc
    simp only [sampleAccumulate, initAcc] at h ⊢
    omega
  · intro a e
    unfold sampleStep
    by_cases h : ttlTruthy e.ttl <;> simp [h]

/-- C5: when the sampling pass yields `total_keys = 0`, all three memory
estimates returned by `_get_db_summary` are exactly 0 — the divisions
are guarded by each bucket's key count, so no division is performed. -/
theorem sampler_zero_keys (size : Int) (entries : List SampleEntry)
    (h : (sampleAccumulate entries).total_keys = 0) :
    (getDbSummary size entries).total_memory = 0
    ∧ (getDbSummary size entries).volatile_memory = 0
    ∧ (getDbSummary size entries).persistent_memory = 0 := by
  have hpart := (sampler_bucket_partition entries).1
  have hv : (sampleAccumulate entries).volatile_keys = 0 := by omega
  have hp : (sampleAccumulate entries).persistent_keys = 0 := by omega
  simp [getDbSummary, h, hv, hp]

/-- Witness for C5 at the empty sample. -/
theorem sampler_zero_keys_witness :
    (sampleAccumulate ([] : List SampleEntry)).total_keys = 0
    ∧ ((getDbSummary 7 ([] : List SampleEntry)).total_memory = 0
      ∧ (getDbSummary 7 ([] : List SampleEntry)).volatile_memory = 0
      ∧ (getDbSummary 7 ([] : List SampleEntry)).persistent_memory = 0) :=
  ⟨by decide, sampler_zero_keys 7 [] (by decide)⟩

/-- C4: the scaling step computes `(total_memory / total_keys) * size`
(and each bucket scaled by its own key count, see `getDbSummary`), so
on a sample in which every key has the same computed length `L` the
returned total estimate is exactly `L * size` over ℚ — the ideal value
the source's float computation approximates. -/
theorem sampler_uniform_scaling (size L : Int) (entries : List SampleEntry)
    (hne : entries ≠ []) (hL : ∀ e ∈ entries, entryLen e = L) :
    (getDbSummary size entries).total_memory = (L : ℚ) * (size : ℚ) := by
  have hkeys : (sampleAccumulate entries).total_keys = entries.length := by
    unfold sampleAccumulate
    rw [sampleFold_total_keys]
    simp [initAcc]
  have hmap : entries.map entryLen = List.replicate entries.length L := by
    apply List.eq_replicate_iff.2
    refine ⟨by simp, ?_⟩
    intro b hb
    obtain ⟨e, he, rfl⟩ := List.mem_map.1 hb
    exact hL e he
  have hmem : (sampleAccumulate entries).total_memory
      = L * (entries.length : Int) := by
    unfold sampleAccumulate
    rw [sampleFold_total_memory, hmap, List.sum_replicate]
    simp [initAcc, nsmul_eq_mul, mul_comm]
  have hn : entries.length ≠ 0 := fun hz => hne (List.length_eq_zero.1 hz)
  have hnq : ((entries.length : ℚ)) ≠ 0 := by exact_mod_cast hn
  simp only [getDbSummary, hkeys, hmem, if_pos hn]
  push_cast
  field_simp

/-- Witness for C4: one sampled key of computed length 5 in a database
of size 4 gives a total estimate of 20. -/
theorem sampler_uniform_scaling_witness :
    (([⟨"ab", 3, Option.some 5⟩] : List SampleEntry) ≠ []
      ∧ ∀ e ∈ ([⟨"ab", 3, Option.some 5⟩] : List SampleEntry), entryLen e = 5)
    ∧ (getDbSummary 4 [⟨"ab", 3, Option.some 5⟩]).total_memory
        = (5 : ℚ) * (4 : ℚ) :=
  ⟨⟨by decide, by decide⟩,
    sampler_uniform_scaling 4 5 [⟨"ab", 3, Option.some 5⟩] (by decide) (by decide)⟩

/-- C1 (code bug): the sampling loop of `_get_db_summary`
(src/app.py lines 254-259) sends a key whose TTL reply is truthy —
i.e. a key WITH an expiry set, a "volatile" key in Redis terminology —
to the `persistent_memory`/`persistent_keys` bucket, and a key with a
falsy TTL reply to the `volatile_memory`/`volatile_keys` bucket: the
exact opposite of what the variable names mean and what the spec
states. Concretely, a single sampled key `"a"` with
`serializedlength = 5` and `ttl = 100` ends up entirely in the
persistent bucket, while a key whose TTL reply is nil (no expiry,
older client) ends up in the volatile bucket. -/
theorem sampler_ttl_bucket_swapped :
    (sampleAccumulate [⟨"a", 5, Option.some 100⟩]).persistent_keys = 1
    ∧ (sampleAccumulate [⟨"a", 5, Option.some 100⟩]).volatile_keys = 0
    ∧ (sampleAccumulate [⟨"a", 5, Option.some 100⟩]).persistent_memory = 6
    ∧ (sampleAccumulate [⟨"a", 5, Option.some 100⟩]).volatile_memory = 0
    ∧ (sampleAccumulate [⟨"a", 5, Option.some 100⟩]).total_keys = 1
    ∧ (sampleAccumulate [⟨"a", 5, Option.none⟩]).volatile_keys = 1
    ∧ (sampleAccumulate [⟨"a", 5, Option.none⟩]).persistent_keys = 0 := by
  decide

/-! ## Key Inspector (`_get_key_info`, src/app.py lines 189-219)

The store is modelled as an association list from key names to the data
the inspector's commands read. Because a key can be deleted (or
replaced) between the `conn.type(key)` call and the pipelined batch,
the embedding takes two store snapshots: one at type-check time and one
at batch-execution time. -/

/-- The five value types with a `LENGTH_GETTERS` entry
(src/app.py lines 51-57). -/
inductive RType where
  | list
  | string
  | set
  | zset
  | hash
deriving DecidableEq, Repr

/-- The byte-string type tag the TYPE command reports for each type. -/
def RType.toBytes : RType → PyBytes
  | .list => ⟨"list", true⟩
  | .string => ⟨"string", true⟩
  | .set => ⟨"set", true⟩
  | .zset => ⟨"zset", true⟩
  | .hash => ⟨"hash", true⟩

/-- What the inspector's commands can read about one stored key:
its type, OBJECT REFCOUNT / ENCODING / IDLETIME replies, the length its
type-specific length command reports, and its TTL reply. -/
structure RKeyData where
  typ : RType
  refcount : Int
  encoding : String
  idletime : Int
  length : Int
  ttl : Int
deriving DecidableEq, Repr

/-- A store snapshot: an association list from key name to key data. -/
abbrev Store := List (String × RKeyData)

/-- The TYPE command: the key's type tag, or `b"none"` for a missing
key. -/
def typeCmd (store : Store) (key : String) : PyBytes :=
  match store.lookup key with
  | Option.some d => d.typ.toBytes
  | Option.none => ⟨"none", true⟩

/-- The domain of the `LENGTH_GETTERS` dict (src/app.py lines 51-57):
the five byte-string type tags it maps to length commands. `b"none"`
is NOT among them, so indexing the dict with it raises KeyError. -/
def LENGTH_GETTERS_types : List PyBytes :=
  [⟨"list", true⟩, ⟨"string", true⟩, ⟨"set", true⟩,
   ⟨"zset", true⟩, ⟨"hash", true⟩]

/-- The KeyInfo record `_get_key_info` returns
(src/app.py lines 201-219). -/
structure KeyInfo where
  type : PyVal
  name : String
  length : PyVal
  ttl : PyVal
  refcount : PyVal
  encoding : PyVal
  idletime : PyVal
  error : Option String
deriving DecidableEq, Repr

/-- Executing the pipelined batch of `_get_key_info` (OBJECT REFCOUNT /
ENCODING / IDLETIME, the type-specific length command, TTL) against the
batch-time snapshot, with `raise_on_error` semantics: if the key is
absent the OBJECT commands fail with `ERR no such key`; if it now holds
a value of a different type than `obj_type`, the length command fails
with WRONGTYPE; otherwise the five replies come back in order. -/
def keyInfoPipeExec (store : Store) (key : String) (obj_type : PyBytes) :
    Except String (Int × PyBytes × Int × Int × Int) :=
  match store.lookup key with
  | Option.none => Except.error "ERR no such key"
  | Option.some d =>
      if d.typ.toBytes = obj_type then
        Except.ok (d.refcount, ⟨d.encoding, true⟩, d.idletime, d.length, d.ttl)
      else
        Except.error
          "WRONGTYPE Operation against a key holding the wrong kind of value"

/-- Embedding of `_get_key_info` (src/app.py lines 189-219). A
ResponseError from the batch is caught and turned into the degraded
KeyInfo (all metadata fields `n/a`, `type` kept as the raw bytes from
the type check, `error` carrying the message). The KeyError raised by
`LENGTH_GETTERS[obj_type]` for a type tag outside the table (e.g.
`b"none"` when the key was already absent at type-check time) is not a
ResponseError and escapes the handler: that path is `Except.error`. -/
def get_key_info (storeAtType storeAtBatch : Store) (key : String) :
    Except String KeyInfo :=
  let obj_type := typeCmd storeAtType key
  if obj_type ∈ LENGTH_GETTERS_types then
    match keyInfoPipeExec storeAtBatch key obj_type with
    | Except.error exc =>
        Except.ok
          { type := PyVal.bytes obj_type
            name := key
            length := na
            ttl := na
            refcount := na
            encoding := na
            idletime := na
            error := Option.some exc }
    | Except.ok (refcount, encoding, idletime, obj_length, obj_ttl) =>
        Except.ok
          { type := decode_bytes (PyVal.bytes obj_type)
            name := key
            length := PyVal.int obj_length
            ttl := PyVal.int obj_ttl
            refcount := PyVal.int refcount
            encoding := decode_bytes (PyVal.bytes encoding)
            idletime := PyVal.int idletime
            error := Option.none }
  else
    Except.error ("KeyError: " ++ obj_type.data)

/-- C2: for a key that exists at type-check time (so also for one that
vanishes before the batch), `_get_key_info` never raises for a
store-level command error: it returns a KeyInfo whose `error` is
populated exactly when the metadata fields are `n/a`; and when the key
is gone by batch time, the returned KeyInfo keeps the type-check
`type`, has `length = "n/a"`, and a non-empty `error`. -/
theorem inspector_total_on_existing
    (storeAtType storeAtBatch : Store) (key : String)
    (hpresent : (storeAtType.lookup key).isSome = true) :
    ∃ info : KeyInfo,
      get_key_info storeAtType storeAtBatch key = Except.ok info
      ∧ ((info.error ≠ Option.none) ↔
          (info.length = na ∧ info.ttl = na ∧ info.refcount = na
            ∧ info.encoding = na ∧ info.idletime = na))
      ∧ (storeAtBatch.lookup key = Option.none →
          info.type = PyVal.bytes (typeCmd storeAtType key)
          ∧ info.length = na
          ∧ ∃ m, info.error = Option.some m ∧ m ≠ "") := by
  obtain ⟨d, hd⟩ := Option.isSome_iff_exists.1 hpresent
  have htype : typeCmd storeAtType key = d.typ.toBytes := by
    simp [typeCmd, hd]
  have hmem : d.typ.toBytes ∈ LENGTH_GETTERS_types := by
    cases d.typ <;> simp [RType.toBytes, LENGTH_GETTERS_types]
  cases hpipe : keyInfoPipeExec storeAtBatch key (d.typ.toBytes) with
  | error exc =>
      refine ⟨{ type := PyVal.bytes d.typ.toBytes, name := key, length := na,
                ttl := na, refcount := na, encoding := na, idletime := na,
                error := Option.some exc }, ?_, ?_, ?_⟩
      · simp [get_key_info, htype, hmem, hpipe]
      · simp [na]
      · intro habs
        simp only [keyInfoPipeExec, habs] at hpipe
        simp only [Except.error.injEq] at hpipe
        refine ⟨by simp [htype], rfl, exc, rfl, ?_⟩
        rw [← hpipe]
        decide
  | ok res =>
      obtain ⟨refcount, encoding, idletime, obj_length, obj_ttl⟩ := res
      refine ⟨{ type := decode_bytes (PyVal.bytes d.typ.toBytes), name := key,
                length := PyVal.int obj_length, ttl := PyVal.int obj_ttl,
                refcount := PyVal.int refcount,
                encoding := decode_bytes (PyVal.bytes encoding),
                idletime := PyVal.int idletime, error := Option.none }, ?_, ?_, ?_⟩
      · simp [get_key_info, htype, hmem, hpipe]
      · simp [na, decode_bytes]
      · intro habs
        simp [keyInfoPipeExec, habs] at hpipe

/-- Witness for C2: the key `"k"` exists as a string at type-check time
and is gone by batch time. -/
theorem inspector_total_on_existing_witness :
    ((([("k", ⟨RType.string, 1, "embstr", 0, 3, -1⟩)] : Store).lookup "k").isSome
        = true)
    ∧ (∃ info : KeyInfo,
        get_key_info [("k", ⟨RType.string, 1, "embstr", 0, 3, -1⟩)] [] "k"
          = Except.ok info
        ∧ ((info.error ≠ Option.none) ↔
            (info.length = na ∧ info.ttl = na ∧ info.refcount = na
              ∧ info.encoding = na ∧ info.idletime = na))
        ∧ (([] : Store).lookup "k" = Option.none →
            info.type
              = PyVal.bytes
                  (typeCmd [("k", ⟨RType.string, 1, "embstr", 0, 3, -1⟩)] "k")
            ∧ info.length = na
            ∧ ∃ m, info.error = Option.some m ∧ m ≠ "")) :=
  ⟨by decide,
    inspector_total_on_existing
      [("k", ⟨RType.string, 1, "embstr", 0, 3, -1⟩)] [] "k" (by decide)⟩

/-! ## Server Stats Aggregator (`RedisServer.stats`, src/app.py 108-139)

The fetch against the store (`conn.info()`, `conn.slowlog_get()`,
`conn.slowlog_len()`) is modelled as an `Except`: an error models a
raised exception (connection failure included), success carries the
three replies. Everything the `try` block then computes is embedded
below; any failure inside it is caught by the same `except Exception`
handler. -/

/-- The configuration constants of src/app.py lines 12-31 that the
stats path reads. The filter entries are compiled as regexes, but every
pattern is a literal without metacharacters and `name.match(k)` anchors
at the start of `k`, so matching is exactly `pyStartsWith k name`. -/
def REDISBOARD_DETAIL_FILTERS : List String :=
  ["aof_enabled", "bgrewriteaof_in_progress", "bgsave_in_progress",
   "changes_since_last_save", "last_save_time", "multiplexing_api",
   "total_commands_processed", "total_connections_received",
   "uptime_in_days", "uptime_in_seconds", "vm_enabled", "redis_version"]

/-- `REDISBOARD_DETAIL_TIMESTAMP_KEYS` (src/app.py line 29). -/
def REDISBOARD_DETAIL_TIMESTAMP_KEYS : List String :=
  ["last_save_time"]

/-- `REDISBOARD_DETAIL_SECONDS_KEYS` (src/app.py line 30). -/
def REDISBOARD_DETAIL_SECONDS_KEYS : List String :=
  ["uptime_in_seconds"]

/-- `REDISBOARD_SLOWLOG_LEN` (src/app.py line 31). -/
def REDISBOARD_SLOWLOG_LEN : Nat := 10

/-- Python `s.startswith(p)` — also what `name.match(k)` amounts to for
the literal filter patterns — modelled structurally over the character
list. -/
def pyStartsWith (s p : String) : Bool :=
  p.data.isPrefixOf s.data

/-- A prettified stats value: either a `datetime.timedelta` built from
a seconds count, or the raw value passed through. -/
inductive Pretty where
  | timedelta (seconds : PyVal)
  | raw (v : PyVal)
deriving DecidableEq, Repr

/-- Embedding of `prettify` (src/app.py lines 83-89). The timestamp
branch evaluates `datetime.fromtimestamp(value)`; line 4 binds
`datetime` to the MODULE (`import datetime`), which has no attribute
`fromtimestamp` (the class method is `datetime.datetime.fromtimestamp`,
used correctly at line 152), so reaching that branch raises
AttributeError before any conversion happens. -/
def prettify (key : String) (value : PyVal) :
    Except String (String × Pretty) :=
  if key ∈ REDISBOARD_DETAIL_SECONDS_KEYS then
    Except.ok (key, Pretty.timedelta value)
  else if key ∈ REDISBOARD_DETAIL_TIMESTAMP_KEYS then
    Except.error "AttributeError: module datetime has no attribute fromtimestamp"
  else
    Except.ok (key, Pretty.raw value)

/-- One raw slowlog entry as the client returns it: id, start_time in
epoch seconds, duration in microseconds, and the command bytes. -/
structure SlowlogRaw where
  id : Int
  start_time : Int
  duration : Int
  command : PyBytes
deriving DecidableEq, Repr

/-- The three replies a successful stats fetch produces: the parsed
INFO mapping, the raw slowlog entries, and the slowlog length. -/
structure InfoFetch where
  info : List (String × PyVal)
  slowlog : List SlowlogRaw
  slowlog_len : Int
deriving DecidableEq, Repr

/-- The stats record (the dict literals of src/app.py lines 115-129 and
131-139). The error dict carries no `db` entry, modelled as `none`. -/
structure ServerStats where
  status : String
  details : List (String × PyVal)
  memory : String
  clients : PyVal
  brief_details : List (String × Pretty)
  db : Option (List (String × PyVal))
  slowlog : List SlowlogRaw
  slowlog_len : Int
deriving DecidableEq, Repr

/-- Python str() of the values that reach f-string formatting in
`stats`; INFO values are already parsed to text or integers by the
client, so the byte-string repr is abstracted to its content. -/
def pyToString : PyVal → String
  | .int n => toString n
  | .str s => s
  | .bytes b => b.data
  | .none => "None"

/-- Indexing the INFO dict: a missing key raises KeyError. -/
def lookupPy (info : List (String × PyVal)) (k : String) :
    Except String PyVal :=
  match info.lookup k with
  | Option.some v => Except.ok v
  | Option.none => Except.error ("KeyError: " ++ k)

/-- The (name, value) pairs selected by the brief-details generator
(src/app.py lines 120-125): for each filter pattern, every INFO pair
whose key the pattern matches (anchored literal match, i.e. prefix). -/
def briefDetailPairs (info : List (String × PyVal)) :
    List (String × PyVal) :=
  REDISBOARD_DETAIL_FILTERS.flatMap
    (fun name => info.filter (fun kv => pyStartsWith kv.1 name))

/-- Building `brief_details`: prettify each selected pair; a raised
AttributeError propagates out of the generator. -/
def brief_details (info : List (String × PyVal)) :
    Except String (List (String × Pretty)) :=
  (briefDetailPairs info).mapM (fun kv => prettify kv.1 kv.2)

/-- The per-database counts (src/app.py line 126): INFO keys starting
with `"db"`, with that 2-character prefix stripped. -/
def dbCounts (info : List (String × PyVal)) : List (String × PyVal) :=
  (info.filter (fun kv => pyStartsWith kv.1 "db")).map
    (fun kv => (kv.1.drop 2, kv.2))

/-- Python renders `exc.args` in the f-string as a tuple; its text form
is abstracted as the parenthesized message (only the fixed `ERROR`
prefix matters to any claim). -/
def excArgsRepr (msg : String) : String :=
  "(" ++ msg ++ ",)"

/-- The error dict of src/app.py lines 131-139. -/
def degradedStats (msg : String) : ServerStats :=
  { status := "ERROR: " ++ excArgsRepr msg
    clients := na
    memory := "n/a"
    details := []
    brief_details := []
    db := Option.none
    slowlog := []
    slowlog_len := 0 }

/-- The success dict of src/app.py lines 115-129, built from the three
fetched replies; each lookup or prettification that raises makes the
whole construction fail (into the same `except Exception` handler). -/
def buildStats (f : InfoFetch) : Except String ServerStats := do
  let mem ← lookupPy f.info "used_memory_human"
  let peak := (f.info.lookup "used_memory_peak_human").getD na
  let clients ← lookupPy f.info "connected_clients"
  let brief ← brief_details f.info
  Except.ok
    { status := "UP"
      details := f.info
      memory := pyToString mem ++ " (peak: " ++ pyToString peak ++ ")"
      clients := clients
      brief_details := brief
      db := Option.some (dbCounts f.info)
      slowlog := f.slowlog
      slowlog_len := f.slowlog_len }

/-- Embedding of the body of `RedisServer.stats` (src/app.py lines
108-139): any exception, whether from the fetch itself or from
building the success dict, yields the degraded dict; the function
itself never fails. -/
def stats (fetch : Except String InfoFetch) : ServerStats :=
  match fetch with
  | Except.error e => degradedStats e
  | Except.ok f =>
      match buildStats f with
      | Except.ok s => s
      | Except.error e => degradedStats e

/-- C3: every fetch failure (connection failure included) makes
`stats` return the degraded record rather than propagate: the status
carries the `ERROR` prefix, `clients` is `n/a`, `slowlog` is empty,
and the remaining fields are their defaults (`memory` the `n/a`
marker, empty details and brief details, no `db` entry, zero slowlog
length). That no exception propagates is structural: `stats` returns a
plain `ServerStats`, not an `Except`. -/
theorem stats_degrades_on_fetch_failure (e : String) :
    (∃ rest, (stats (Except.error e)).status = "ERROR" ++ rest)
    ∧ (stats (Except.error e)).clients = na
    ∧ (stats (Except.error e)).slowlog = []
    ∧ (stats (Except.error e)).memory = "n/a"
    ∧ (stats (Except.error e)).details = []
    ∧ (stats (Except.error e)).brief_details = []
    ∧ (stats (Except.error e)).db = Option.none
    ∧ (stats (Except.error e)).slowlog_len = 0 := by
  refine ⟨⟨": " ++ excArgsRepr e, ?_⟩, rfl, rfl, rfl, rfl, rfl, rfl, rfl⟩
  show "ERROR: " ++ excArgsRepr e = "ERROR" ++ (": " ++ excArgsRepr e)
  rw [← String.append_assoc]
  congr 1

/-- C7 (code bug): `prettify` renders a seconds-valued key as a
duration and passes other keys through, but on a timestamp-valued key
(`last_save_time`) it raises AttributeError instead of returning a
point-in-time value, because line 87 of src/app.py calls
`datetime.fromtimestamp` on the `datetime` MODULE (line 4 is
`import datetime`); the correct class method
`datetime.datetime.fromtimestamp` is what line 152 uses. -/
theorem prettify_timestamp_branch_raises :
    prettify "uptime_in_seconds" (PyVal.int 5)
        = Except.ok ("uptime_in_seconds", Pretty.timedelta (PyVal.int 5))
    ∧ prettify "last_save_time" (PyVal.int 0)
        = Except.error
            "AttributeError: module datetime has no attribute fromtimestamp"
    ∧ prettify "connected_clients" (PyVal.int 7)
        = Except.ok ("connected_clients", Pretty.raw (PyVal.int 7)) :=
  ⟨rfl, rfl, rfl⟩

/-- One access to the `stats` attribute under werkzeug
`cached_property` semantics (src/app.py line 108): the first access
computes the dict and stores it on the instance, every later access
returns the stored dict without touching the store. The instance is
the module-level `server = RedisServer()` singleton (line 161), which
lives across requests. Arguments: the current cache slot, and the
outcome a fresh fetch would have; result: the value served and the new
cache slot. -/
def statsAccess (cache : Option ServerStats)
    (fetch : Except String InfoFetch) : ServerStats × Option ServerStats :=
  match cache with
  | Option.some s => (s, Option.some s)
  | Option.none => (stats fetch, Option.some (stats fetch))

/-- A store state with one connected client. -/
def fetchOneClient : Except String InfoFetch :=
  Except.ok
    { info := [("used_memory_human", PyVal.str "1M"),
               ("connected_clients", PyVal.int 1)]
      slowlog := []
      slowlog_len := 0 }

/-- The same store after a change: two connected clients. -/
def fetchTwoClients : Except String InfoFetch :=
  Except.ok
    { info := [("used_memory_human", PyVal.str "1M"),
               ("connected_clients", PyVal.int 2)]
      slowlog := []
      slowlog_len := 0 }

/-- C8 counterexample: two accesses to the stats entry point separated
by a change in the store's state do NOT reflect that change — the
second access serves the cached first result instead of recomputing,
even though a fresh computation would differ. -/
theorem stats_not_recomputed_counterexample :
    (statsAccess (statsAccess Option.none fetchOneClient).2 fetchTwoClients).1
      ≠ stats fetchTwoClients
    ∧ (statsAccess (statsAccess Option.none fetchOneClient).2 fetchTwoClients).1
      = stats fetchOneClient
    ∧ stats fetchOneClient ≠ stats fetchTwoClients := by
  have h1 : (stats fetchOneClient).clients = PyVal.int 1 := rfl
  have h2 : (stats fetchTwoClients).clients = PyVal.int 2 := rfl
  have hserved :
      (statsAccess (statsAccess Option.none fetchOneClient).2
        fetchTwoClients).1 = stats fetchOneClient := rfl
  refine ⟨?_, hserved, ?_⟩
  · intro h
    rw [hserved] at h
    rw [h, h2] at h1
    exact absurd h1 (by decide)
  · intro h
    rw [h, h2] at h1
    exact absurd h1 (by decide)

/-- C8 amended: server stats ARE cached across requests. The first
access computes the result from the fetch; once the module-level
singleton holds a cached value, every later access returns exactly the
first access's result, whatever the store's state has become. -/
theorem stats_cached_across_requests
    (fetch1 fetch2 : Except String InfoFetch) :
    (statsAccess Option.none fetch1).1 = stats fetch1
    ∧ (statsAccess (statsAccess Option.none fetch1).2 fetch2).1
      = stats fetch1 := by
  exact ⟨rfl, rfl⟩

/-! ## Type Dispatch Table (`VALUE_GETTERS`, src/app.py lines 38-49)

Each content-fetch lambda is embedded as a function of the data the
store command it issues would return; range bounds are the lambda's
`start`/`end` arguments. -/

/-- The first component of a content pair: an integer position or a
field name (the Python `"string"` text, or a hash field byte-string). -/
inductive FieldPos where
  | pos (n : Int)
  | field (v : PyVal)
deriving DecidableEq, Repr

/-- Redis LRANGE / ZRANGE rank semantics shared by `conn.lrange` and
`conn.zrange`: inclusive start/stop ranks, negative ranks counted from
the end, clamped to the available elements. -/
def rangeSlice (xs : List PyBytes) (start stop : Int) : List PyBytes :=
  let n : Int := xs.length
  let s : Int := if start < 0 then max 0 (n + start) else start
  let e : Int := if stop < 0 then n + stop else stop
  (xs.drop s.toNat).take (e - s + 1).toNat

/-- `VALUE_GETTERS["list"]` (src/app.py lines 39-41): enumerate the
LRANGE reply and offset each position by `start`; values stay raw
bytes. -/
def valueGetterList (xs : List PyBytes) (start stop : Int) :
    List (FieldPos × PyVal) :=
  (rangeSlice xs start stop).enum.map
    (fun pv => (FieldPos.pos ((pv.1 : Int) + start), PyVal.bytes pv.2))

/-- `VALUE_GETTERS["string"]` (src/app.py line 42): one pair whose
field name is the text `"string"`, value opportunistically decoded;
`conn.get` yields nil for a vanished key and `_decode_bytes` passes it
through. -/
def valueGetterString (stored : Option PyBytes) : List (FieldPos × PyVal) :=
  [(FieldPos.field (PyVal.str "string"),
    decode_bytes (match stored with
      | Option.some b => PyVal.bytes b
      | Option.none => PyVal.none))]

/-- `VALUE_GETTERS["set"]` (src/app.py line 43): enumerate the SMEMBERS
reply (enumeration order is the store's) with plain position indices. -/
def valueGetterSet (members : List PyBytes) : List (FieldPos × PyVal) :=
  members.enum.map (fun pv => (FieldPos.pos (pv.1 : Int), PyVal.bytes pv.2))

/-- `VALUE_GETTERS["zset"]` (src/app.py lines 44-46): same shape as the
list getter over the ZRANGE reply. -/
def valueGetterZset (xs : List PyBytes) (start stop : Int) :
    List (FieldPos × PyVal) :=
  (rangeSlice xs start stop).enum.map
    (fun pv => (FieldPos.pos ((pv.1 : Int) + start), PyVal.bytes pv.2))

/-- `VALUE_GETTERS["hash"]` (src/app.py line 47): all HGETALL
field/value pairs, raw. -/
def valueGetterHash (fields : List (PyBytes × PyBytes)) :
    List (FieldPos × PyVal) :=
  fields.map (fun kv => (FieldPos.field (PyVal.bytes kv.1), PyVal.bytes kv.2))

/-- `VALUE_GETTERS["n/a"]` (src/app.py line 48): the empty sequence. -/
def valueGetterNA : List (FieldPos × PyVal) :=
  []

/-- Mapping a function of the index over an enumerated list is mapping
it over the index range. -/
lemma enum_map_fst_comp {α β : Type} (ys : List α) (g : Nat → β) :
    ys.enum.map (fun pv => g pv.1) = (List.range ys.length).map g := by
  rw [← List.enum_map_fst ys, List.map_map]
  rfl

/-- C9: the first components of every content-fetch result: integer
positions for list/set/zset — offset by the caller-supplied start
bound for list/zset, plain indices for set — and field names for
hash/string, the string getter returning a single pair whose field
name is `"string"`. -/
theorem value_getters_first_components :
    (∀ (xs : List PyBytes) (start stop : Int),
      (valueGetterList xs start stop).map Prod.fst
        = (List.range (rangeSlice xs start stop).length).map
            (fun i : Nat => FieldPos.pos ((i : Int) + start)))
    ∧ (∀ (xs : List PyBytes) (start stop : Int),
      (valueGetterZset xs start stop).map Prod.fst
        = (List.range (rangeSlice xs start stop).length).map
            (fun i : Nat => FieldPos.pos ((i : Int) + start)))
    ∧ (∀ members : List PyBytes,
      (valueGetterSet members).map Prod.fst
        = (List.range members.length).map
            (fun i : Nat => FieldPos.pos (i : Int)))
    ∧ (∀ fields : List (PyBytes × PyBytes),
      (valueGetterHash fields).map Prod.fst
        = fields.map (fun kv => FieldPos.field (PyVal.bytes kv.1)))
    ∧ (∀ stored : Option PyBytes, ∃ v,
      valueGetterString stored
        = [(FieldPos.field (PyVal.str "string"), v)]) := by
  refine ⟨?_, ?_, ?_, ?_, ?_⟩
  · intro xs start stop
    unfold valueGetterList
    rw [List.map_map]
    exact enum_map_fst_comp (rangeSlice xs start stop)
      (fun i => FieldPos.pos ((i : Int) + start))
  · intro xs start stop
    unfold valueGetterZset
    rw [List.map_map]
    exact enum_map_fst_comp (rangeSlice xs start stop)
      (fun i => FieldPos.pos ((i : Int) + start))
  · intro members
    unfold valueGetterSet
    rw [List.map_map]
    exact enum_map_fst_comp members (fun i => FieldPos.pos (i : Int))
  · intro fields
    unfold valueGetterHash
    rw [List.map_map]
    rfl
  · intro stored
    exact ⟨_, rfl⟩

/-! ## Slowlog accessor (`RedisServer.slowlog_get`, src/app.py 147-158)

The store call `self.connection.slowlog_get(n)` is modelled as a
function from the requested entry count to either a ConnectionError or
the raw entries; the generator's per-entry dict and the
catch-and-stop-silently on ConnectionError are embedded directly. -/

/-- The dict yielded per slowlog entry (src/app.py lines 150-155); the
`ts` point in time (`datetime.datetime.fromtimestamp(start_time)`,
line 152 — the correct class-method call) is represented by its epoch
seconds. -/
structure SlowlogEntryDict where
  id : Int
  ts : Int
  duration : Int
  command : PyBytes
deriving DecidableEq, Repr

/-- The per-entry transformation of the generator body. -/
def slowlogTransform (e : SlowlogRaw) : SlowlogEntryDict :=
  { id := e.id
    ts := e.start_time
    duration := e.duration
    command := e.command }

/-- Embedding of `RedisServer.slowlog_get` (src/app.py lines 147-158):
despite taking `limit` (defaulted to `REDISBOARD_SLOWLOG_LEN`), the
body requests `REDISBOARD_SLOWLOG_LEN` entries from the store
regardless, transforms each, and yields nothing past a
ConnectionError. -/
def slowlog_get (limit : Nat)
    (connSlowlogGet : Nat → Except String (List SlowlogRaw)) :
    List SlowlogEntryDict :=
  match connSlowlogGet REDISBOARD_SLOWLOG_LEN with
  | Except.error _ => []
  | Except.ok xs => xs.map slowlogTransform

/-- C10: the `limit` parameter of `slowlog_get` has no effect: the
fixed count `REDISBOARD_SLOWLOG_LEN = 10` is requested whatever
`limit` is, two calls with different limits against the same store
agree, and the result depends on the store only through its reply to
that fixed request. -/
theorem slowlog_get_limit_ignored :
    REDISBOARD_SLOWLOG_LEN = 10
    ∧ (∀ (limit1 limit2 : Nat)
         (conn : Nat → Except String (List SlowlogRaw)),
        slowlog_get limit1 conn = slowlog_get limit2 conn)
    ∧ (∀ (limit : Nat)
         (conn1 conn2 : Nat → Except String (List SlowlogRaw)),
        conn1 REDISBOARD_SLOWLOG_LEN = conn2 REDISBOARD_SLOWLOG_LEN →
        slowlog_get limit conn1 = slowlog_get limit conn2) := by
  refine ⟨rfl, fun limit1 limit2 conn => rfl, ?_⟩
  intro limit conn1 conn2 h
  unfold slowlog_get
  rw [h]

/-- Witness for C10: two store behaviours that agree on the fixed
request count yield identical results, at concrete distinct limits. -/
theorem slowlog_get_limit_ignored_witness :
    ((fun _ : Nat => (Except.ok [] : Except String (List SlowlogRaw)))
        REDISBOARD_SLOWLOG_LEN
      = (fun n : Nat =>
          if n = 10 then (Except.ok [] : Except String (List SlowlogRaw))
          else Except.error "connection refused") REDISBOARD_SLOWLOG_LEN)
    ∧ slowlog_get 3 (fun _ : Nat => Except.ok [])
      = slowlog_get 3 (fun n : Nat =>
          if n = 10 then Except.ok [] else Except.error "connection refused") :=
  ⟨rfl, slowlog_get_limit_ignored.2.2 3
    (fun _ : Nat => Except.ok [])
    (fun n : Nat =>
      if n = 10 then Except.ok [] else Except.error "connection refused")
    rfl⟩
